import Mathlib

/-!
Verification of the eBPF DNS hook (daemon/dns/ebpfhook.go).

The development embeds, as executable Lean definitions:
  * the 272-byte `nameLookupEvent` record layout and the per-event body of
    the reader goroutine (decode, hostname truncation at the first zero
    byte, IPv4/IPv6 address projection);
  * `lookupSymbol` (linear scan of an ELF symbol table);
  * the probe-name stripping done with two one-shot string replacements;
  * the control flow of `DnsListenerEbpf` (load, libc discovery, the
    uprobe attach loop with its soft/fatal error split, the
    zero-probes-attached gate, perf-map initialisation, polling).

Byte buffers are lists of naturals; fallible operations return `Option`
or `Except`; a Go runtime panic is modelled as a distinct outcome.
-/

set_option maxRecDepth 40000

namespace OpensnitchDns

/-- Layout of `nameLookupEvent`: `AddrType uint32`, `Ip [16]uint8`,
`Host [252]byte`, read with `binary.Read` in little-endian order from a
272-byte buffer. -/
structure NameLookupEvent where
  addrType : Nat
  ip : List Nat
  host : List Nat
deriving DecidableEq, Repr

/-- Little-endian `uint32` from the first four bytes of a buffer. -/
def readUint32LE (b : List Nat) : Nat :=
  b.getD 0 0 + 256 * b.getD 1 0 + 65536 * b.getD 2 0 + 16777216 * b.getD 3 0

/-- `binary.Read(bytes.NewBuffer(data), binary.LittleEndian, &event)`:
fails (EOF) when fewer than 272 bytes are available, otherwise fills the
three fields from the regions [0,4), [4,20), [20,272). -/
def decodeEvent (data : List Nat) : Option NameLookupEvent :=
  if data.length < 272 then none
  else some { addrType := readUint32LE (data.take 4)
              ip := (data.drop 4).take 16
              host := (data.drop 20).take 252 }

/-- `bytes.IndexByte`: index of the first occurrence of `c`, `none`
standing for Go's -1. -/
def indexByte : List Nat → Nat → Option Nat
  | [], _ => none
  | b :: bs, c => if b = c then some 0 else (indexByte bs c).map (· + 1)

/-- Outcome of one iteration of the reader goroutine for one buffer
received on the channel. -/
inductive EventResult where
  /-- `binary.Read` failed: log a warning and `continue`. -/
  | skipped
  /-- A Go runtime panic: `Host[:bytes.IndexByte(...)]` with index -1. -/
  | panicked
  /-- `Track(ip, host)` is reached with these hostname and address bytes. -/
  | tracked (host : List Nat) (ipBytes : List Nat)
deriving DecidableEq, Repr

/-- Body of the reader goroutine for one received buffer
(ebpfhook.go lines 154-172): decode, cut the hostname at the first zero
byte, project the address to 4 bytes iff `AddrType == 2` (AF_INET). -/
def handleEvent (data : List Nat) : EventResult :=
  match decodeEvent data with
  | none => .skipped
  | some ev =>
    match indexByte ev.host 0 with
    | none => .panicked
    | some i =>
      .tracked (ev.host.take i)
        (if ev.addrType = 2 then ev.ip.take 4 else ev.ip)

example : handleEvent (([2, 0, 0, 0] ++ List.replicate 16 7) ++
    (104 :: List.replicate 251 0)) =
    .tracked [104] [7, 7, 7, 7] := by decide

example : handleEvent (List.replicate 272 1) = .panicked := by decide

example : handleEvent [1, 2, 3] = .skipped := by decide

/-! ### Probe-name stripping

`strings.Replace(s, old, "", 1)` removes the first occurrence of `old`
anywhere in `s` (not only a leading one). `DnsListenerEbpf` applies it
twice: first for "uretprobe/", then for "uprobe/". -/

/-- Whether `pat` occurs at the head of the list. -/
def startsWithL : List Char → List Char → Bool
  | _, [] => true
  | [], _ :: _ => false
  | c :: cs, p :: ps => c == p && startsWithL cs ps

/-- `strings.Replace s pat "" 1`: remove the first (leftmost) occurrence
of `pat`, leave the list unchanged when `pat` does not occur. -/
def removeFirst (pat : List Char) : List Char → List Char
  | [] => []
  | c :: cs =>
    if startsWithL (c :: cs) pat then (c :: cs).drop pat.length
    else c :: removeFirst pat cs

/-- Whether `pat` occurs as a contiguous sublist. -/
def containsSub (pat : List Char) : List Char → Bool
  | [] => startsWithL [] pat
  | c :: cs => startsWithL (c :: cs) pat || containsSub pat cs

def patUret : List Char := "uretprobe/".data

def patUp : List Char := "uprobe/".data

/-- Target-function derivation from a probe's raw name
(ebpfhook.go lines 120-121). -/
def probeFunction (name : String) : String :=
  ⟨removeFirst patUp (removeFirst patUret name.data)⟩

example : probeFunction "uprobe/getaddrinfo" = "getaddrinfo" := by decide
example : probeFunction "uretprobe/getaddrinfo" = "getaddrinfo" := by decide
example : probeFunction "uprobe/uretprobe/x" = "x" := by decide

/-! ### Symbol lookup (`lookupSymbol`) -/

/-- One entry of the ELF symbol table (`elf.Symbol`: name and value). -/
structure ElfSymbol where
  name : String
  value : Nat
deriving DecidableEq, Repr

/-- The two failure modes of `lookupSymbol`: `elffile.Symbols()` itself
erred, or the linear scan found no entry with the requested name. -/
inductive LookupError where
  | symbolsFailed
  | symbolNotFound (name : String)
deriving DecidableEq, Repr

deriving instance DecidableEq for Except

/-- The linear scan of `lookupSymbol`: first entry whose name equals
`symbolName`, yielding its recorded value. -/
def findSymbol (symbolName : String) : List ElfSymbol → Option Nat
  | [] => none
  | s :: rest =>
    if s.name == symbolName then some s.value else findSymbol symbolName rest

/-- `lookupSymbol` (ebpfhook.go lines 80-91). The symbol table is `none`
when `elffile.Symbols()` returns an error, which is forwarded as-is. -/
def lookupSymbol (symbols? : Option (List ElfSymbol)) (symbolName : String) :
    Except LookupError Nat :=
  match symbols? with
  | none => .error .symbolsFailed
  | some syms =>
    match findSymbol symbolName syms with
    | some v => .ok v
    | none => .error (.symbolNotFound symbolName)

/-! ### Control flow of `DnsListenerEbpf` -/

/-- The environment a run executes against: which of the fallible
external operations succeed, the declared probes, and the symbol table
of the opened libc. `attachOk u off` tells whether the kernel accepts
attaching probe `u` at offset `off`. -/
structure Env where
  loadOk : Bool
  libcFound : Bool
  elfOpenOk : Bool
  symbols? : Option (List ElfSymbol)
  uprobes : List String
  attachOk : String → Nat → Bool
  initPerfMapOk : Bool

/-- Result of the attach loop (ebpfhook.go lines 118-133): either some
probe's kernel attach failed fatally, or the loop ran to completion with
a count of attached probes. -/
inductive LoopResult where
  | fatal (probe : String)
  | done (attached : Nat)
deriving DecidableEq, Repr

/-- The attach loop: per probe, derive the target function, look up its
offset (any lookup error logs a warning and continues), then ask the
kernel to attach (failure aborts the whole pass). -/
def attachLoop (env : Env) : List String → Nat → LoopResult
  | [], n => .done n
  | u :: rest, n =>
    match lookupSymbol env.symbols? (probeFunction u) with
    | .error _ => attachLoop env rest n
    | .ok off =>
      if env.attachOk u off then attachLoop env rest (n + 1) else .fatal u

/-- Where a run of `DnsListenerEbpf` ends up. `polling n` means the
event channel and perf map were set up and `PollStart` was reached with
`n` probes attached. -/
inductive RunOutcome where
  | loadFailed
  | libcNotFound
  | elfOpenFailed
  | attachFailed (probe : String)
  | noProbesAttached
  | perfMapInitFailed
  | polling (attached : Nat)
deriving DecidableEq, Repr

/-- Sequential control flow of `DnsListenerEbpf` (ebpfhook.go lines
93-180): module load, libc discovery, ELF open, the attach loop, the
`probes_attached == 0` gate, perf-map initialisation, then polling. -/
def dnsListenerEbpf (env : Env) : RunOutcome :=
  if !env.loadOk then .loadFailed
  else if !env.libcFound then .libcNotFound
  else if !env.elfOpenOk then .elfOpenFailed
  else
    match attachLoop env env.uprobes 0 with
    | .fatal u => .attachFailed u
    | .done n =>
      if n = 0 then .noProbesAttached
      else if !env.initPerfMapOk then .perfMapInitFailed
      else .polling n

example :
    dnsListenerEbpf
      { loadOk := true, libcFound := true, elfOpenOk := true
        symbols? := some [⟨"getaddrinfo", 4660⟩]
        uprobes := ["uprobe/getaddrinfo", "uretprobe/getaddrinfo"]
        attachOk := fun _ _ => true, initPerfMapOk := true } =
    .polling 2 := by decide

example :
    dnsListenerEbpf
      { loadOk := true, libcFound := true, elfOpenOk := true
        symbols? := some []
        uprobes := ["uprobe/getaddrinfo"]
        attachOk := fun _ _ => true, initPerfMapOk := true } =
    .noProbesAttached := by decide

/-! ### Lemmas about the event pipeline -/

/-- For a buffer of at least 272 bytes the reader body reduces to the
hostname cut and the address projection on the three field regions. -/
theorem handleEvent_long (data : List Nat) (h : 272 ≤ data.length) :
    handleEvent data =
      match indexByte ((data.drop 20).take 252) 0 with
      | none => .panicked
      | some i =>
        .tracked (((data.drop 20).take 252).take i)
          (if readUint32LE (data.take 4) = 2 then ((data.drop 4).take 16).take 4
           else (data.drop 4).take 16) := by
  unfold handleEvent decodeEvent
  rw [if_neg (by omega)]

/-- When `c` occurs in `l`, `indexByte` yields an index `i`, and the
first `i` elements are exactly the elements strictly before the first
occurrence of `c`. -/
theorem indexByte_first (c : Nat) (l : List Nat) (h : c ∈ l) :
    ∃ i, indexByte l c = some i ∧ l.take i = l.takeWhile (fun b => b != c) := by
  induction l with
  | nil => cases h
  | cons b bs ih =>
    by_cases hb : b = c
    · exact ⟨0, by simp [indexByte, hb], by simp [hb]⟩
    · have hmem : c ∈ bs := by
        rcases List.mem_cons.mp h with h1 | h1
        · exact absurd h1.symm hb
        · exact h1
      obtain ⟨i, hi, ht⟩ := ih hmem
      exact ⟨i + 1, by simp [indexByte, hb, hi],
        by simp [List.take_succ_cons, List.takeWhile_cons, hb, ht]⟩

/-- When `c` does not occur in `l`, `indexByte` yields Go's -1. -/
theorem indexByte_none (c : Nat) (l : List Nat) (h : c ∉ l) :
    indexByte l c = none := by
  induction l with
  | nil => rfl
  | cons b bs ih =>
    have hb : b ≠ c := fun hbc => h (hbc ▸ List.mem_cons_self b bs)
    have hm : c ∉ bs := fun hc => h (List.mem_cons_of_mem b hc)
    simp [indexByte, hb, ih hm]

/-- Claim C4: for every received buffer that decodes (at least 272
bytes) and whose 252-byte hostname region contains a zero byte, the
hostname handed to `Track` is exactly the bytes strictly before the
first zero byte. -/
theorem hostname_cut_at_first_zero (data : List Nat)
    (h1 : 272 ≤ data.length) (h2 : 0 ∈ (data.drop 20).take 252) :
    ∃ ip, handleEvent data =
      .tracked (((data.drop 20).take 252).takeWhile (fun b => b != 0)) ip := by
  obtain ⟨i, hi, ht⟩ := indexByte_first 0 _ h2
  rw [handleEvent_long data h1, hi]
  refine ⟨if readUint32LE (data.take 4) = 2 then ((data.drop 4).take 16).take 4
    else (data.drop 4).take 16, ?_⟩
  rw [← ht]

/-- Claim C4 witness: a concrete 272-byte buffer whose hostname region
is "dns" followed by zero padding. -/
theorem hostname_cut_at_first_zero_witness :
    272 ≤ (List.replicate 20 3 ++
      ([100, 110, 115] ++ List.replicate 249 0) : List Nat).length ∧
    0 ∈ (((List.replicate 20 3 ++
      ([100, 110, 115] ++ List.replicate 249 0) : List Nat).drop 20).take 252) ∧
    ∃ ip, handleEvent (List.replicate 20 3 ++
        ([100, 110, 115] ++ List.replicate 249 0)) =
      .tracked ((((List.replicate 20 3 ++
        ([100, 110, 115] ++ List.replicate 249 0) : List Nat).drop 20).take
          252).takeWhile (fun b => b != 0)) ip :=
  ⟨by decide, by decide,
   hostname_cut_at_first_zero
     (List.replicate 20 3 ++ ([100, 110, 115] ++ List.replicate 249 0))
     (by decide) (by decide)⟩

/-- Claim C3: whenever the reader reaches `Track`, the emitted address
bytes are the first 4 of the 16-byte address region iff the decoded
`AddrType` equals 2 (AF_INET), and all 16 bytes otherwise. -/
theorem address_family_projection (data host ip : List Nat)
    (h : handleEvent data = .tracked host ip) :
    (readUint32LE (data.take 4) = 2 → ip = ((data.drop 4).take 16).take 4) ∧
    (readUint32LE (data.take 4) ≠ 2 → ip = (data.drop 4).take 16) := by
  by_cases hlen : data.length < 272
  · exfalso
    unfold handleEvent decodeEvent at h
    rw [if_pos hlen] at h
    cases h
  · rw [handleEvent_long data (by omega)] at h
    cases hidx : indexByte ((data.drop 20).take 252) 0 with
    | none => rw [hidx] at h; cases h
    | some i =>
      rw [hidx] at h
      injection h with h1 h2
      constructor
      · intro ha; rw [← h2, if_pos ha]
      · intro ha; rw [← h2, if_neg ha]

/-- Claim C3 witness: an AF_INET record (`AddrType = 2`) with address
bytes 9,9,9,9 followed by twelve 7s keeps only the first four. -/
theorem address_family_projection_witness :
    handleEvent (([2, 0, 0, 0] ++ (List.replicate 4 9 ++ List.replicate 12 7))
        ++ (97 :: List.replicate 251 0)) =
      .tracked [97] [9, 9, 9, 9] ∧
    (readUint32LE ((([2, 0, 0, 0] ++
        (List.replicate 4 9 ++ List.replicate 12 7))
        ++ (97 :: List.replicate 251 0) : List Nat).take 4) = 2 →
      [9, 9, 9, 9] = (((([2, 0, 0, 0] ++
        (List.replicate 4 9 ++ List.replicate 12 7))
        ++ (97 :: List.replicate 251 0) : List Nat).drop 4).take 16).take 4) :=
  ⟨by decide,
   (address_family_projection
     (([2, 0, 0, 0] ++ (List.replicate 4 9 ++ List.replicate 12 7))
        ++ (97 :: List.replicate 251 0))
     [97] [9, 9, 9, 9] (by decide)).1⟩

/-- Claim C1 (code bug): a 272-byte buffer whose hostname region holds
no zero byte decodes, but `Host[:bytes.IndexByte(Host, 0)]` slices with
index -1 and the reader goroutine panics instead of using the full
252-byte region. -/
theorem hostname_without_zero_panics :
    (List.replicate 20 0 ++ List.replicate 252 1 : List Nat).length = 272 ∧
    (0 ∉ ((List.replicate 20 0 ++ List.replicate 252 1 : List Nat).drop
      20).take 252) ∧
    handleEvent (List.replicate 20 0 ++ List.replicate 252 1) = .panicked := by
  refine ⟨by decide, by decide, ?_⟩
  decide

/-! ### Lemmas about symbol lookup -/

/-- The linear scan finds some entry with the requested name when one
is present, and returns that entry's recorded value. -/
theorem findSymbol_some (name : String) (tbl : List ElfSymbol)
    (h : ∃ s ∈ tbl, s.name = name) :
    ∃ s ∈ tbl, s.name = name ∧ findSymbol name tbl = some s.value := by
  induction tbl with
  | nil => simp at h
  | cons a rest ih =>
    by_cases ha : a.name = name
    · exact ⟨a, List.mem_cons_self a rest, ha, by simp [findSymbol, ha]⟩
    · obtain ⟨s, hmem, hname⟩ := h
      rcases List.mem_cons.mp hmem with rfl | hmem2
      · exact absurd hname ha
      · obtain ⟨t, htm, htn, hf⟩ := ih ⟨s, hmem2, hname⟩
        exact ⟨t, List.mem_cons_of_mem a htm, htn, by simp [findSymbol, ha, hf]⟩

/-- The linear scan fails when no entry carries the requested name. -/
theorem findSymbol_none (name : String) (tbl : List ElfSymbol)
    (h : ∀ s ∈ tbl, s.name ≠ name) : findSymbol name tbl = none := by
  induction tbl with
  | nil => rfl
  | cons a rest ih =>
    have ha := h a (List.mem_cons_self a rest)
    simp [findSymbol, ha, ih (fun s hs => h s (List.mem_cons_of_mem a hs))]

/-- Claim C7: against a readable symbol table, `lookupSymbol` returns
the recorded value of an entry matching the requested name when one
exists, and fails with `symbolNotFound` exactly when no entry matches;
the match is an exact linear scan by name. -/
theorem lookup_symbol_linear (tbl : List ElfSymbol) (name : String) :
    ((∃ s ∈ tbl, s.name = name) →
      ∃ s ∈ tbl, s.name = name ∧ lookupSymbol (some tbl) name = .ok s.value) ∧
    ((∀ s ∈ tbl, s.name ≠ name) →
      lookupSymbol (some tbl) name = .error (.symbolNotFound name)) := by
  constructor
  · intro h
    obtain ⟨s, hm, hn, hf⟩ := findSymbol_some name tbl h
    exact ⟨s, hm, hn, by simp [lookupSymbol, hf]⟩
  · intro h
    simp [lookupSymbol, findSymbol_none name tbl h]

/-- The symbol table of the spec's worked example. -/
def specTable : List ElfSymbol :=
  [⟨"getaddrinfo", 0x1234⟩, ⟨"gethostbyname", 0x5678⟩]

/-- Claim C7 witness: on the spec's example table, "getaddrinfo"
resolves to 0x1234 and "nonexistent" fails with `symbolNotFound`. -/
theorem lookup_symbol_linear_witness :
    (∀ s ∈ specTable, s.name ≠ "nonexistent") ∧
    lookupSymbol (some specTable) "nonexistent" =
      .error (.symbolNotFound "nonexistent") ∧
    lookupSymbol (some specTable) "getaddrinfo" = .ok 0x1234 :=
  ⟨by decide, (lookup_symbol_linear specTable "nonexistent").2 (by decide),
   by decide⟩

/-! ### Theorems about the attach loop and run control flow -/

/-- Claim C2: under the preconditions reached before the loop (module
loaded, libc found, ELF opened), once the attach loop completes with
count `n`: if `n = 0` the run ends with the fatal no-probes-attached
error before any perf-map initialisation; if `n` is positive, the run
proceeds to initialise the perf map and reaches polling when that
initialisation succeeds. -/
theorem zero_probes_gate (env : Env) (n : Nat)
    (hl : env.loadOk = true) (hf : env.libcFound = true)
    (he : env.elfOpenOk = true)
    (hd : attachLoop env env.uprobes 0 = .done n) :
    (n = 0 → dnsListenerEbpf env = .noProbesAttached) ∧
    (n ≠ 0 → dnsListenerEbpf env =
      (if env.initPerfMapOk then .polling n else .perfMapInitFailed)) := by
  unfold dnsListenerEbpf
  rw [hl, hf, he, hd]
  constructor
  · intro h0
    simp [h0]
  · intro h0
    simp only [Bool.not_true, Bool.false_eq_true, if_false, if_neg h0]
    cases hp : env.initPerfMapOk <;> simp

/-- Environment for the C2 witness: one declared probe that resolves
and attaches. -/
def env2 : Env :=
  { loadOk := true, libcFound := true, elfOpenOk := true
    symbols? := some [⟨"getaddrinfo", 4660⟩]
    uprobes := ["uprobe/getaddrinfo"]
    attachOk := fun _ _ => true, initPerfMapOk := true }

/-- Claim C2 witness: with one attachable probe the loop ends at count
1 and the run reaches polling. -/
theorem zero_probes_gate_witness :
    env2.loadOk = true ∧ env2.libcFound = true ∧ env2.elfOpenOk = true ∧
    attachLoop env2 env2.uprobes 0 = .done 1 ∧
    (1 ≠ 0 → dnsListenerEbpf env2 =
      (if env2.initPerfMapOk then .polling 1 else .perfMapInitFailed)) :=
  ⟨rfl, rfl, rfl, by decide,
   (zero_probes_gate env2 1 rfl rfl rfl (by decide)).2⟩

/-- Claim C5: a probe whose target symbol the lookup reports as not
found is skipped and the loop continues identically on the remaining
probes, with the same running count; the failure never aborts the
pass. -/
theorem symbol_not_found_soft (env : Env) (u : String) (rest : List String)
    (n : Nat)
    (h : lookupSymbol env.symbols? (probeFunction u) =
      .error (.symbolNotFound (probeFunction u))) :
    attachLoop env (u :: rest) n = attachLoop env rest n := by
  simp only [attachLoop]
  rw [h]

/-- Environment for the C5 witness: the table lacks "getaddrinfo". -/
def env5 : Env :=
  { loadOk := true, libcFound := true, elfOpenOk := true
    symbols? := some [⟨"gethostbyname", 22136⟩]
    uprobes := ["uprobe/getaddrinfo", "uretprobe/gethostbyname"]
    attachOk := fun _ _ => true, initPerfMapOk := true }

/-- Claim C5 witness: the unresolvable probe is dropped and the loop
continues with the remaining probe. -/
theorem symbol_not_found_soft_witness :
    lookupSymbol env5.symbols? (probeFunction "uprobe/getaddrinfo") =
      .error (.symbolNotFound (probeFunction "uprobe/getaddrinfo")) ∧
    attachLoop env5 ["uprobe/getaddrinfo", "uretprobe/gethostbyname"] 0 =
      attachLoop env5 ["uretprobe/gethostbyname"] 0 :=
  ⟨by decide,
   symbol_not_found_soft env5 "uprobe/getaddrinfo"
     ["uretprobe/gethostbyname"] 0 (by decide)⟩

/-- Claim C6: a probe whose symbol resolves but whose kernel attach is
rejected aborts the loop immediately with that probe's fatal error —
whatever probes remain are not processed — and, placed at the head of
the declared probes, the error propagates as the run's outcome. -/
theorem attach_reject_fatal (env : Env) (u : String) (rest : List String)
    (n off : Nat)
    (hs : lookupSymbol env.symbols? (probeFunction u) = .ok off)
    (ha : env.attachOk u off = false) :
    attachLoop env (u :: rest) n = .fatal u ∧
    (env.loadOk = true → env.libcFound = true → env.elfOpenOk = true →
      env.uprobes = u :: rest → dnsListenerEbpf env = .attachFailed u) := by
  have hloop : ∀ m, attachLoop env (u :: rest) m = .fatal u := by
    intro m
    simp only [attachLoop]
    rw [hs]
    simp [ha]
  refine ⟨hloop n, ?_⟩
  intro hl hf he hu
  unfold dnsListenerEbpf
  rw [hl, hf, he, hu, hloop 0]
  simp

/-- Environment for the C6 witness: the symbol resolves but the kernel
rejects every attach request. -/
def env6 : Env :=
  { loadOk := true, libcFound := true, elfOpenOk := true
    symbols? := some [⟨"getaddrinfo", 4660⟩]
    uprobes := ["uprobe/getaddrinfo", "uretprobe/getaddrinfo"]
    attachOk := fun _ _ => false, initPerfMapOk := true }

/-- Claim C6 witness: the rejected head probe makes the whole pass and
the run fail with that probe's error, the second probe unprocessed. -/
theorem attach_reject_fatal_witness :
    lookupSymbol env6.symbols? (probeFunction "uprobe/getaddrinfo") =
      .ok 4660 ∧
    env6.attachOk "uprobe/getaddrinfo" 4660 = false ∧
    attachLoop env6 ["uprobe/getaddrinfo", "uretprobe/getaddrinfo"] 0 =
      .fatal "uprobe/getaddrinfo" ∧
    dnsListenerEbpf env6 = .attachFailed "uprobe/getaddrinfo" := by
  have h := attach_reject_fatal env6 "uprobe/getaddrinfo"
    ["uretprobe/getaddrinfo"] 0 4660 (by decide) rfl
  exact ⟨by decide, rfl, h.1, h.2 rfl rfl rfl rfl⟩

/-- Claim C10: when reading the symbol table itself fails,
`lookupSymbol` forwards that error, and the loop treats it exactly like
a missing symbol: the probe is skipped and the pass continues on the
remaining probes with the same count. -/
theorem symbols_error_soft (env : Env) (u : String) (rest : List String)
    (n : Nat) (h : env.symbols? = none) :
    lookupSymbol env.symbols? (probeFunction u) = .error .symbolsFailed ∧
    attachLoop env (u :: rest) n = attachLoop env rest n := by
  have h1 : lookupSymbol env.symbols? (probeFunction u) =
      .error .symbolsFailed := by
    rw [h]
    rfl
  refine ⟨h1, ?_⟩
  simp only [attachLoop]
  rw [h1]

/-- Environment for the C10 witness: `Symbols()` errors out. -/
def env10 : Env :=
  { loadOk := true, libcFound := true, elfOpenOk := true
    symbols? := none
    uprobes := ["uprobe/getaddrinfo", "uretprobe/getaddrinfo"]
    attachOk := fun _ _ => true, initPerfMapOk := true }

/-- Claim C10 witness: with an unreadable symbol table the head probe
is skipped softly and the loop continues. -/
theorem symbols_error_soft_witness :
    lookupSymbol env10.symbols? (probeFunction "uprobe/getaddrinfo") =
      .error .symbolsFailed ∧
    attachLoop env10 ["uprobe/getaddrinfo", "uretprobe/getaddrinfo"] 0 =
      attachLoop env10 ["uretprobe/getaddrinfo"] 0 :=
  symbols_error_soft env10 "uprobe/getaddrinfo" ["uretprobe/getaddrinfo"] 0 rfl

/-! ### Theorems about probe-name stripping -/

/-- A list starts with itself followed by anything. -/
theorem startsWithL_append_self (p t : List Char) :
    startsWithL (p ++ t) p = true := by
  induction p with
  | nil => simp [startsWithL]
  | cons c cs ih => simp [startsWithL, ih]

/-- Removing a pattern from a list that starts with it drops exactly
that leading copy. -/
theorem removeFirst_append_self (p t : List Char) (hp : p ≠ []) :
    removeFirst p (p ++ t) = t := by
  cases p with
  | nil => exact absurd rfl hp
  | cons c cs =>
    have h := startsWithL_append_self (c :: cs) t
    simp only [List.cons_append] at h
    simp only [List.cons_append, removeFirst, List.append_eq]
    rw [h]
    simp [List.length_cons, List.drop_succ_cons, List.drop_left]

/-- Removing a pattern that does not occur leaves the list unchanged. -/
theorem removeFirst_of_not_contains (pat s : List Char)
    (h : containsSub pat s = false) : removeFirst pat s = s := by
  induction s with
  | nil => rfl
  | cons c cs ih =>
    simp only [containsSub, Bool.or_eq_false_iff] at h
    simp only [removeFirst]
    rw [h.1]
    simp [ih h.2]

/-- Claim C8 counterexample: the raw name "uprobe/uretprobe/x" has the
form "uprobe/<f>" with <f> = "uretprobe/x", yet the one-shot
replacement removes the embedded "uretprobe/" occurrence first and the
derived target is "x", not <f>. -/
theorem probe_function_cex :
    probeFunction "uprobe/uretprobe/x" = "x" ∧
    probeFunction "uprobe/uretprobe/x" ≠ "uretprobe/x" := by decide

/-- Claim C8 (amended): a raw name "uprobe/<f>" derives exactly <f>
provided the whole raw name contains no occurrence of "uretprobe/",
and a raw name "uretprobe/<f>" derives exactly <f> provided <f>
contains no occurrence of "uprobe/" — each form under its own
condition, because the derivation removes the first occurrence of
"uretprobe/" and then of "uprobe/" anywhere in the name, not only a
leading kind marker. -/
theorem probe_function_strip (f : String) :
    (containsSub patUret ("uprobe/" ++ f).data = false →
      probeFunction ("uprobe/" ++ f) = f) ∧
    (containsSub patUp f.data = false →
      probeFunction ("uretprobe/" ++ f) = f) := by
  have hdUp : ("uprobe/" ++ f).data = patUp ++ f.data := rfl
  have hdUret : ("uretprobe/" ++ f).data = patUret ++ f.data := rfl
  constructor
  · intro h1
    have e1 : removeFirst patUret ("uprobe/" ++ f).data = patUp ++ f.data := by
      rw [removeFirst_of_not_contains patUret _ h1, hdUp]
    have e2 : removeFirst patUp (patUp ++ f.data) = f.data :=
      removeFirst_append_self patUp f.data (by decide)
    show String.mk
      (removeFirst patUp (removeFirst patUret ("uprobe/" ++ f).data)) = f
    rw [e1, e2]
  · intro h2
    have e1 : removeFirst patUret ("uretprobe/" ++ f).data = f.data := by
      rw [hdUret]
      exact removeFirst_append_self patUret f.data (by decide)
    have e2 : removeFirst patUp f.data = f.data :=
      removeFirst_of_not_contains patUp f.data h2
    show String.mk
      (removeFirst patUp (removeFirst patUret ("uretprobe/" ++ f).data)) = f
    rw [e1, e2]

/-- Claim C8 witness: both "uprobe/getaddrinfo" and
"uretprobe/getaddrinfo" derive the target "getaddrinfo", each side
condition discharged on its own. -/
theorem probe_function_strip_witness :
    containsSub patUret ("uprobe/" ++ "getaddrinfo").data = false ∧
    containsSub patUp ("getaddrinfo" : String).data = false ∧
    probeFunction ("uprobe/" ++ "getaddrinfo") = "getaddrinfo" ∧
    probeFunction ("uretprobe/" ++ "getaddrinfo") = "getaddrinfo" :=
  ⟨by decide, by decide,
   (probe_function_strip "getaddrinfo").1 (by decide),
   (probe_function_strip "getaddrinfo").2 (by decide)⟩

end OpensnitchDns
